import Mathlib

/-!
Verification of the presale program (src/src/lib.rs) of
teamaquadoge/presale-solana.

The program is shallowly embedded: public keys are naturals, lamport
balances are a total map from public key to a natural below 2^64, and each
instruction handler is a pure function from the pre-state to
`Except TxError Chain`.  An `Except.error` result models a rejected
transaction: the hosting environment commits nothing, so the pre-state is
unchanged.  All `require!` / `require_keys_eq!` checks are embedded in the
order the source performs them.
-/

namespace PresaleSolana

/-- The custom error codes of the program (`enum ErrorCode`, lib.rs 294-319). -/
inductive ErrorCode where
  | PresaleIsPaused
  | Overflow
  | Underflow
  | Unauthorized
  | InvalidPaymentWallet
  | InvalidAmountTransferred
deriving DecidableEq

/-- Every way a transaction of this program can end abnormally: a typed
`ErrorCode` raised by a `require!` macro, the `ProgramError::InvalidArgument`
returned for a self-transfer (lib.rs 81-83), a system-program transfer
failure (insufficient sender balance, or receiver lamport overflow), an
abort of checked u64 lamport arithmetic inside `withdraw_sol`, and a missing
signature detected by account validation. -/
inductive TxError where
  | custom (e : ErrorCode)
  | invalidArgument
  | insufficientFunds
  | arithmeticOverflow
  | arithmeticAbort
  | accountNotSigner
deriving DecidableEq

/-- The persistent account data (`struct Presale`, lib.rs 278-291). -/
structure Presale where
  owner : Nat
  rate : Nat
  payment_wallet : Nat
  is_paused : Bool
deriving DecidableEq

/-- On-chain state the program touches: the presale account data, the
address the presale account is stored at, and every account's lamport
balance. -/
structure Chain where
  presaleKey : Nat
  presale : Presale
  balances : Nat → Nat

/-- Handler `initialize` (lib.rs 23-39): builds the fresh record with
owner = the creating signer, the supplied rate and payment wallet, and
`is_paused = false`.  (The storage-slot creation itself is the runtime's
job; this is the data the handler writes into it.) -/
def initPresale (caller payment_wallet rate : Nat) : Presale :=
  { owner := caller, rate := rate, payment_wallet := payment_wallet, is_paused := false }

/-- Handler `stake_tokens` (lib.rs 42-47): only emits two `msg!` log lines;
it reads nothing from and writes nothing to the record or any balance. -/
def stake_tokens (s : Chain) (buyer amount : Nat) : Except TxError Chain :=
  .ok s

/-- Handler `claim_evm` (lib.rs 50-55): only emits two `msg!` log lines with
the caller's key and the submitted string; no check of any kind is applied
to `evm_address`. -/
def claim_evm (s : Chain) (user : Nat) (evm_address : String) : Except TxError Chain :=
  .ok s

/-- Subtracting an amount from one account of a balance map (a u64 `-=` on
that account's lamports). -/
def debit (bal : Nat → Nat) (key amount : Nat) : Nat → Nat :=
  fun k => if k = key then bal key - amount else bal k

/-- Adding an amount to one account of a balance map (a u64 `+=` on that
account's lamports). -/
def credit (bal : Nat → Nat) (key amount : Nat) : Nat → Nat :=
  fun k => if k = key then bal key + amount else bal k

/-- Modelled from the spec: the transfer-of-value primitive of the hosting
environment (`system_instruction::transfer` invoked by `buy_tokens`; the
system program's implementation is not part of this repository).  Per §6 of
the spec it "atomically moves a fixed amount between two identities and
fails without partial effect if the source has insufficient balance", and
per §7 an `Overflow` of the receiver's u64 balance must fail rather than
wrap.  The sender is debited first, then the receiver credited. -/
def sysTransfer (bal : Nat → Nat) (sender receiver amount : Nat) :
    Except TxError (Nat → Nat) :=
  if bal sender < amount then .error .insufficientFunds
  else if 2 ^ 64 ≤ debit bal sender amount receiver + amount then .error .arithmeticOverflow
  else .ok (credit (debit bal sender amount) receiver amount)

/-- Handler `buy_tokens` (lib.rs 58-110).  Checks, in source order:
`require!(!presale.is_paused, PresaleIsPaused)`, then
`require_keys_eq!(presale.payment_wallet, payment_wallet.key(),
InvalidPaymentWallet)`, then the explicit sender == receiver rejection with
`ProgramError::InvalidArgument`; only then is the SOL transfer invoked.
The record is never written; `stake` and `evm_address` are only logged. -/
def buy_tokens (s : Chain) (buyer payment_wallet sol_amount : Nat)
    (stake : Bool) (evm_address : String) : Except TxError Chain :=
  if s.presale.is_paused then .error (.custom .PresaleIsPaused)
  else if s.presale.payment_wallet ≠ payment_wallet then
    .error (.custom .InvalidPaymentWallet)
  else if buyer = payment_wallet then .error .invalidArgument
  else
    match sysTransfer s.balances buyer payment_wallet sol_amount with
    | .error e => .error e
    | .ok b => .ok { s with balances := b }

/-- Handler `withdraw_sol` (lib.rs 113-126).  After the owner check the
source runs `presale.lamports -= amount` then `recipient.lamports += amount`
as plain u64 arithmetic.  Modelled from the spec for the part outside src/:
the build manifest that fixes wrap-versus-abort semantics is not in the
repository snapshot, and the spec (§4.2 withdraw_funds) mandates that the
operation "must fail ... rather than allow the record's balance to go
negative" or the recipient's to wrap, which matches Anchor's standard
overflow-checked build; out-of-range u64 arithmetic is therefore an
`arithmeticAbort` that rejects the whole transaction.  Note the handler
itself never constructs `ErrorCode::Underflow` or `ErrorCode::Overflow`. -/
def withdraw_sol (s : Chain) (owner recipient amount : Nat) :
    Except TxError Chain :=
  if s.presale.owner ≠ owner then .error (.custom .Unauthorized)
  else if s.balances s.presaleKey < amount then .error .arithmeticAbort
  else if 2 ^ 64 ≤ debit s.balances s.presaleKey amount recipient + amount then
    .error .arithmeticAbort
  else .ok { s with balances := credit (debit s.balances s.presaleKey amount) recipient amount }

/-- Account validation of the `WithdrawSol` context (lib.rs 233-245)
followed by the `withdraw_sol` handler.  Both `recipient` and `owner` are
declared as `Signer` accounts.  Modelled from the spec for the framework
part: signer proof is "(c) authenticated-signer proof for each identity
referenced by an operation" supplied by the hosting environment (§6); an
account declared `Signer` that did not sign fails validation before the
handler body runs.  Accounts are validated in declaration order
(presale, recipient, owner). -/
def withdraw_sol_entry (s : Chain) (owner recipient : Nat)
    (recipient_signed owner_signed : Bool) (amount : Nat) : Except TxError Chain :=
  if !recipient_signed then .error .accountNotSigner
  else if !owner_signed then .error .accountNotSigner
  else withdraw_sol s owner recipient amount

/-- Handler `change_rate` (lib.rs 129-139): owner check, then
`presale.rate = new_rate`. -/
def change_rate (s : Chain) (owner new_rate : Nat) : Except TxError Chain :=
  if s.presale.owner ≠ owner then .error (.custom .Unauthorized)
  else .ok { s with presale := { s.presale with rate := new_rate } }

/-- Handler `change_payment_wallet` (lib.rs 142-155): owner check, then
`presale.payment_wallet = new_wallet`. -/
def change_payment_wallet (s : Chain) (owner new_wallet : Nat) : Except TxError Chain :=
  if s.presale.owner ≠ owner then .error (.custom .Unauthorized)
  else .ok { s with presale := { s.presale with payment_wallet := new_wallet } }

/-- Handler `pause_presale` (lib.rs 158-168): owner check, then
`presale.is_paused = pause`. -/
def pause_presale (s : Chain) (owner : Nat) (pause : Bool) : Except TxError Chain :=
  if s.presale.owner ≠ owner then .error (.custom .Unauthorized)
  else .ok { s with presale := { s.presale with is_paused := pause } }

/-- One instruction of the deployed program, everything callable after the
record exists. -/
inductive Op where
  | stakeTokens (buyer amount : Nat)
  | claimEvm (user : Nat) (evm_address : String)
  | buyTokens (buyer payment_wallet sol_amount : Nat) (stake : Bool) (evm_address : String)
  | withdrawSol (owner recipient amount : Nat)
  | changeRate (owner new_rate : Nat)
  | changePaymentWallet (owner new_wallet : Nat)
  | pausePresale (owner : Nat) (pause : Bool)

/-- Dispatch of one instruction against the current state. -/
def step (s : Chain) : Op → Except TxError Chain
  | .stakeTokens b a => stake_tokens s b a
  | .claimEvm u e => claim_evm s u e
  | .buyTokens b w amt st e => buy_tokens s b w amt st e
  | .withdrawSol o r a => withdraw_sol s o r a
  | .changeRate o r => change_rate s o r
  | .changePaymentWallet o w => change_payment_wallet s o w
  | .pausePresale o p => pause_presale s o p

/-- A concrete balance map used by the witnesses: the presale account
(key 100) holds 5 lamports, account 1 holds 50, account 2 holds 10. -/
def baseBal : Nat → Nat :=
  fun k => if k = 100 then 5 else if k = 1 then 50 else if k = 2 then 10 else 0

/-- A concrete running (unpaused) state: owner 0, rate 7, payment wallet 2. -/
def activeChain : Chain :=
  { presaleKey := 100
    presale := { owner := 0, rate := 7, payment_wallet := 2, is_paused := false }
    balances := baseBal }

/-- The same state with the presale paused. -/
def pausedChain : Chain :=
  { activeChain with presale := { activeChain.presale with is_paused := true } }

/-- C5: for every (rate, payment_wallet), `initialize` creates a record with
owner equal to the creating caller, rate equal to the supplied rate,
payment_wallet equal to the supplied payment_wallet, and is_paused = false. -/
theorem init_sets_fields (caller payment_wallet rate : Nat) :
    (initPresale caller payment_wallet rate).owner = caller ∧
    (initPresale caller payment_wallet rate).rate = rate ∧
    (initPresale caller payment_wallet rate).payment_wallet = payment_wallet ∧
    (initPresale caller payment_wallet rate).is_paused = false :=
  ⟨rfl, rfl, rfl, rfl⟩

/-- C9: `record_stake_intent` (`stake_tokens`) and `record_evm_claim`
(`claim_evm`) succeed for every signing caller and every input — including
every string as `evm_address`, with no content validation — and return the
state exactly as it was: no record field changes and no funds move. -/
theorem log_ops_identity (s : Chain) :
    (∀ buyer amount : Nat, stake_tokens s buyer amount = .ok s) ∧
    (∀ (user : Nat) (evm_address : String), claim_evm s user evm_address = .ok s) :=
  ⟨fun _ _ => rfl, fun _ _ => rfl⟩

/-- C3: `buy_tokens` checks its preconditions in order, first failure
winning: a paused presale fails with `PresaleIsPaused` whatever else holds;
with the presale active, a payment wallet different from
`presale.payment_wallet` fails with `InvalidPaymentWallet`; with the presale
active and the wallet matching, a buyer equal to the payment wallet fails
with the `InvalidArgument` self-transfer rejection. -/
theorem buy_check_order (s : Chain) (buyer payment_wallet sol_amount : Nat)
    (stake : Bool) (evm_address : String) :
    (s.presale.is_paused = true →
      buy_tokens s buyer payment_wallet sol_amount stake evm_address
        = .error (.custom .PresaleIsPaused)) ∧
    (s.presale.is_paused = false → s.presale.payment_wallet ≠ payment_wallet →
      buy_tokens s buyer payment_wallet sol_amount stake evm_address
        = .error (.custom .InvalidPaymentWallet)) ∧
    (s.presale.is_paused = false → s.presale.payment_wallet = payment_wallet →
      buyer = payment_wallet →
      buy_tokens s buyer payment_wallet sol_amount stake evm_address
        = .error .invalidArgument) := by
  refine ⟨fun h1 => ?_, fun h1 h2 => ?_, fun h1 h2 h3 => ?_⟩
  · simp [buy_tokens, h1]
  · simp [buy_tokens, h1, h2]
  · simp [buy_tokens, h1, h2, h3]

/-- Witness for C3: the three branches at concrete states and inputs. -/
theorem buy_check_order_witness :
    buy_tokens pausedChain 1 9 5 true "e" = .error (.custom .PresaleIsPaused) ∧
    buy_tokens activeChain 1 9 5 true "e" = .error (.custom .InvalidPaymentWallet) ∧
    buy_tokens activeChain 2 2 5 true "e" = .error .invalidArgument :=
  ⟨(buy_check_order pausedChain 1 9 5 true "e").1 rfl,
   (buy_check_order activeChain 1 9 5 true "e").2.1 rfl (by decide),
   (buy_check_order activeChain 2 2 5 true "e").2.2 rfl rfl rfl⟩

/-- Counterexample to C2 as stated: with the presale paused and a payment
wallet (9) different from the record's (2), `buy_tokens` fails with
`PresaleIsPaused`, not with `InvalidPaymentWallet` — the pause check runs
first, so the error is not `InvalidPaymentWallet` regardless of pause
state. -/
theorem wrong_wallet_paused_counterexample :
    pausedChain.presale.is_paused = true ∧
    (9 : Nat) ≠ pausedChain.presale.payment_wallet ∧
    buy_tokens pausedChain 1 9 5 false "e" = .error (.custom .PresaleIsPaused) ∧
    TxError.custom .PresaleIsPaused ≠ TxError.custom .InvalidPaymentWallet :=
  ⟨rfl, by decide, rfl, by decide⟩

/-- C2 amended: a call to `buy_tokens` with a payment wallet different from
`record.payment_wallet` always fails; the error is `InvalidPaymentWallet`
when the presale is not paused, and `PresaleIsPaused` when it is (the pause
check fires first). -/
theorem wrong_wallet_rejected (s : Chain) (buyer payment_wallet sol_amount : Nat)
    (stake : Bool) (evm_address : String)
    (hw : s.presale.payment_wallet ≠ payment_wallet) :
    (s.presale.is_paused = false →
      buy_tokens s buyer payment_wallet sol_amount stake evm_address
        = .error (.custom .InvalidPaymentWallet)) ∧
    (s.presale.is_paused = true →
      buy_tokens s buyer payment_wallet sol_amount stake evm_address
        = .error (.custom .PresaleIsPaused)) := by
  refine ⟨fun h1 => ?_, fun h1 => ?_⟩ <;> simp [buy_tokens, h1, hw]

/-- Witness for C2 amended: both pause states at a concrete mismatched
wallet. -/
theorem wrong_wallet_rejected_witness :
    buy_tokens activeChain 1 9 5 false "e" = .error (.custom .InvalidPaymentWallet) ∧
    buy_tokens pausedChain 1 9 5 false "e" = .error (.custom .PresaleIsPaused) :=
  ⟨(wrong_wallet_rejected activeChain 1 9 5 false "e" (by decide)).1 rfl,
   (wrong_wallet_rejected pausedChain 1 9 5 false "e" (by decide)).2 rfl⟩

/-- C4: every owner-only operation (`withdraw_sol`, `change_rate`,
`change_payment_wallet`, `pause_presale`) invoked by a caller different from
`record.owner` fails with `Unauthorized`; since every transition either
succeeds whole or is rejected whole, the error result leaves every field of
the record (and every balance) unchanged. -/
theorem owner_only_unauthorized (s : Chain)
    (caller recipient amount new_rate new_wallet : Nat) (pause : Bool)
    (h : caller ≠ s.presale.owner) :
    withdraw_sol s caller recipient amount = .error (.custom .Unauthorized) ∧
    change_rate s caller new_rate = .error (.custom .Unauthorized) ∧
    change_payment_wallet s caller new_wallet = .error (.custom .Unauthorized) ∧
    pause_presale s caller pause = .error (.custom .Unauthorized) := by
  have h2 : s.presale.owner ≠ caller := Ne.symm h
  exact ⟨by simp [withdraw_sol, h2], by simp [change_rate, h2],
    by simp [change_payment_wallet, h2], by simp [pause_presale, h2]⟩

/-- Witness for C4: caller 5 is not the owner (0) of the concrete state. -/
theorem owner_only_unauthorized_witness :
    withdraw_sol activeChain 5 1 3 = .error (.custom .Unauthorized) ∧
    change_rate activeChain 5 42 = .error (.custom .Unauthorized) ∧
    change_payment_wallet activeChain 5 9 = .error (.custom .Unauthorized) ∧
    pause_presale activeChain 5 true = .error (.custom .Unauthorized) :=
  owner_only_unauthorized activeChain 5 1 3 42 9 true (by decide)

/-- C6: a `buy_tokens` call whose buyer equals the supplied payment wallet
never succeeds, for every amount and every state; when the earlier pause and
wallet checks pass, the error is the `InvalidArgument` self-transfer
rejection, which is distinct from `PresaleIsPaused`, `InvalidPaymentWallet`
and `Unauthorized`.  The rejection happens before `sysTransfer` is reached,
so no transfer is attempted and the error result leaves all balances
unchanged. -/
theorem self_transfer_rejected (s : Chain) (payment_wallet sol_amount : Nat)
    (stake : Bool) (evm_address : String) :
    (∀ s2 : Chain,
      buy_tokens s payment_wallet payment_wallet sol_amount stake evm_address ≠ .ok s2) ∧
    (s.presale.is_paused = false → s.presale.payment_wallet = payment_wallet →
      buy_tokens s payment_wallet payment_wallet sol_amount stake evm_address
        = .error .invalidArgument) ∧
    TxError.invalidArgument ≠ .custom .PresaleIsPaused ∧
    TxError.invalidArgument ≠ .custom .InvalidPaymentWallet ∧
    TxError.invalidArgument ≠ .custom .Unauthorized := by
  refine ⟨fun s2 hok => ?_, fun h1 h2 => ?_, by decide, by decide, by decide⟩
  · unfold buy_tokens at hok
    split at hok
    · exact absurd hok (by simp)
    · split at hok
      · exact absurd hok (by simp)
      · rw [if_pos rfl] at hok
        exact absurd hok (by simp)
  · simp [buy_tokens, h1, h2]

/-- Witness for C6: buyer = payment wallet = 2 on the concrete active
state. -/
theorem self_transfer_rejected_witness :
    buy_tokens activeChain 2 2 5 false "e" ≠ .ok activeChain ∧
    buy_tokens activeChain 2 2 5 false "e" = .error .invalidArgument :=
  ⟨(self_transfer_rejected activeChain 2 5 false "e").1 activeChain,
   (self_transfer_rejected activeChain 2 5 false "e").2.1 rfl rfl⟩

/-- Helper: a successful `buy_tokens` returns the record data untouched. -/
theorem buy_tokens_ok_presale (s : Chain) (buyer payment_wallet sol_amount : Nat)
    (stake : Bool) (evm_address : String) (s2 : Chain)
    (h : buy_tokens s buyer payment_wallet sol_amount stake evm_address = .ok s2) :
    s2.presale = s.presale := by
  unfold buy_tokens at h
  split at h
  · exact absurd h (by simp)
  · split at h
    · exact absurd h (by simp)
    · split at h
      · exact absurd h (by simp)
      · rcases hm : sysTransfer s.balances buyer payment_wallet sol_amount with _ | b <;>
          rw [hm] at h
        · exact absurd h (by simp)
        · injection h with h
          subst h
          rfl

/-- Helper: a successful `withdraw_sol` returns the record data untouched
(only lamport balances move). -/
theorem withdraw_sol_ok_presale (s : Chain) (owner recipient amount : Nat)
    (s2 : Chain) (h : withdraw_sol s owner recipient amount = .ok s2) :
    s2.presale = s.presale := by
  unfold withdraw_sol at h
  split at h
  · exact absurd h (by simp)
  · split at h
    · exact absurd h (by simp)
    · split at h
      · exact absurd h (by simp)
      · injection h with h
        subst h
        rfl

/-- Helper: a successful `change_rate` keeps the owner field. -/
theorem change_rate_ok_owner (s : Chain) (owner new_rate : Nat) (s2 : Chain)
    (h : change_rate s owner new_rate = .ok s2) :
    s2.presale.owner = s.presale.owner := by
  unfold change_rate at h
  split at h
  · exact absurd h (by simp)
  · injection h with h
    subst h
    rfl

/-- Helper: a successful `change_payment_wallet` keeps the owner field. -/
theorem change_payment_wallet_ok_owner (s : Chain) (owner new_wallet : Nat)
    (s2 : Chain) (h : change_payment_wallet s owner new_wallet = .ok s2) :
    s2.presale.owner = s.presale.owner := by
  unfold change_payment_wallet at h
  split at h
  · exact absurd h (by simp)
  · injection h with h
    subst h
    rfl

/-- Helper: a successful `pause_presale` keeps the owner field. -/
theorem pause_presale_ok_owner (s : Chain) (owner : Nat) (pause : Bool)
    (s2 : Chain) (h : pause_presale s owner pause = .ok s2) :
    s2.presale.owner = s.presale.owner := by
  unfold pause_presale at h
  split at h
  · exact absurd h (by simp)
  · injection h with h
    subst h
    rfl

/-- C7: the owner field is written exactly once, by `initialize`, to the
creating caller; every instruction of the program that succeeds afterwards
(`stake_tokens`, `claim_evm`, `buy_tokens`, `withdraw_sol`, `change_rate`,
`change_payment_wallet`, `pause_presale`) returns a state with the same
owner, so from every reachable state no operation changes ownership. -/
theorem owner_immutable :
    (∀ caller payment_wallet rate : Nat,
      (initPresale caller payment_wallet rate).owner = caller) ∧
    (∀ (s : Chain) (op : Op) (s2 : Chain),
      step s op = .ok s2 → s2.presale.owner = s.presale.owner) := by
  refine ⟨fun _ _ _ => rfl, fun s op s2 h => ?_⟩
  cases op with
  | stakeTokens b a =>
      injection h with h
      subst h
      rfl
  | claimEvm u e =>
      injection h with h
      subst h
      rfl
  | buyTokens b w amt st ev =>
      rw [buy_tokens_ok_presale s b w amt st ev s2 h]
  | withdrawSol o r a =>
      rw [withdraw_sol_ok_presale s o r a s2 h]
  | changeRate o r =>
      exact change_rate_ok_owner s o r s2 h
  | changePaymentWallet o w =>
      exact change_payment_wallet_ok_owner s o w s2 h
  | pausePresale o p =>
      exact pause_presale_ok_owner s o p s2 h

/-- Witness for C7: a successful `change_rate` by the owner keeps the owner
field, and a fresh record's owner is its creator. -/
theorem owner_immutable_witness :
    (initPresale 3 4 5).owner = 3 ∧
    ({ activeChain with
        presale := { activeChain.presale with rate := 42 } } : Chain).presale.owner
      = activeChain.presale.owner :=
  ⟨owner_immutable.1 3 4 5,
   owner_immutable.2 activeChain (.changeRate 0 42) _ rfl⟩

/-- C8: a successful `buy_tokens` leaves every field of the record (owner,
rate, payment_wallet, is_paused) unchanged — the handler only reads the
record and moves lamports from the buyer to the payment wallet. -/
theorem buy_tokens_frame (s : Chain) (buyer payment_wallet sol_amount : Nat)
    (stake : Bool) (evm_address : String) (s2 : Chain)
    (h : buy_tokens s buyer payment_wallet sol_amount stake evm_address = .ok s2) :
    s2.presale = s.presale :=
  buy_tokens_ok_presale s buyer payment_wallet sol_amount stake evm_address s2 h

/-- Witness for C8: a concrete successful purchase (buyer 1 pays 5 to
wallet 2) leaves the record equal to what it was. -/
theorem buy_tokens_frame_witness :
    ∃ s2 : Chain, buy_tokens activeChain 1 2 5 false "e" = .ok s2 ∧
      s2.presale = activeChain.presale :=
  ⟨_, rfl, buy_tokens_frame activeChain 1 2 5 false "e" _ rfl⟩

/-- Counterexample to C1 as stated: on a concrete state whose presale
account holds 5 lamports, an owner withdrawal of 10 exceeds the available
balance, and the operation fails with the arithmetic abort of the unchecked
`-=` — not with the program's `ErrorCode::Underflow`, which no code path of
`withdraw_sol` ever constructs. -/
theorem withdraw_no_underflow_error :
    activeChain.balances activeChain.presaleKey < 10 ∧
    withdraw_sol activeChain activeChain.presale.owner 1 10 = .error .arithmeticAbort ∧
    TxError.arithmeticAbort ≠ .custom .Underflow :=
  ⟨by decide, rfl, by decide⟩

/-- C1 amended: for an owner withdrawal to a recipient distinct from the
presale account, when amount is at most the custodied balance and the
recipient's balance cannot wrap, the custodied balance decreases by exactly
amount and the recipient's balance increases by exactly amount; when amount
exceeds the custodied balance, or the recipient's balance would pass the
64-bit maximum, the operation fails — by aborting the unchecked u64 `-=` or
`+=`, not with the typed `Underflow` or `Overflow` error codes — and,
transactions being all-or-nothing, both balances are unchanged. -/
theorem withdraw_balance_transfer (s : Chain) (recipient amount : Nat)
    (hr : recipient ≠ s.presaleKey) :
    (amount ≤ s.balances s.presaleKey → s.balances recipient + amount < 2 ^ 64 →
      ∃ s2 : Chain, withdraw_sol s s.presale.owner recipient amount = .ok s2 ∧
        s2.balances s.presaleKey + amount = s.balances s.presaleKey ∧
        s2.balances recipient = s.balances recipient + amount) ∧
    (s.balances s.presaleKey < amount →
      withdraw_sol s s.presale.owner recipient amount = .error .arithmeticAbort) ∧
    (amount ≤ s.balances s.presaleKey → 2 ^ 64 ≤ s.balances recipient + amount →
      withdraw_sol s s.presale.owner recipient amount = .error .arithmeticAbort) := by
  have hr2 : s.presaleKey ≠ recipient := Ne.symm hr
  have hd : debit s.balances s.presaleKey amount recipient = s.balances recipient := by
    simp [debit, hr]
  refine ⟨fun h1 h2 => ?_, fun h1 => ?_, fun h1 h2 => ?_⟩
  · refine ⟨{ s with
        balances := credit (debit s.balances s.presaleKey amount) recipient amount },
      ?_, ?_, ?_⟩
    · unfold withdraw_sol
      rw [if_neg (by simp), if_neg (Nat.not_lt.mpr h1), hd, if_neg (Nat.not_le.mpr h2)]
    · simp [credit, debit, hr2]
      omega
    · simp [credit, debit, hr]
  · unfold withdraw_sol
    rw [if_neg (by simp), if_pos h1]
  · unfold withdraw_sol
    rw [if_neg (by simp), if_neg (Nat.not_lt.mpr h1), hd, if_pos h2]

/-- Witness for C1 amended: the owner withdraws 3 of the 5 custodied
lamports to account 1, whose balance rises from 50 to 53. -/
theorem withdraw_balance_transfer_witness :
    ∃ s2 : Chain, withdraw_sol activeChain activeChain.presale.owner 1 3 = .ok s2 ∧
      s2.balances activeChain.presaleKey + 3 = activeChain.balances activeChain.presaleKey ∧
      s2.balances 1 = activeChain.balances 1 + 3 :=
  (withdraw_balance_transfer activeChain 1 3 (by decide)).1 (by decide) (by decide)

/-- C10: the `WithdrawSol` account context declares `recipient` as a
`Signer`, so a transaction in which the recipient did not sign fails
account validation before the handler runs — even when the supplied owner
is the record's owner — and the owner cannot withdraw to an arbitrary
non-signing identity. -/
theorem withdraw_requires_recipient_signer (s : Chain)
    (owner recipient amount : Nat) (owner_signed : Bool)
    (h : owner = s.presale.owner) :
    withdraw_sol_entry s owner recipient false owner_signed amount
      = .error .accountNotSigner := rfl

/-- Witness for C10: the genuine owner of the concrete state tries to
withdraw 3 lamports to the non-signing account 1 and is rejected. -/
theorem withdraw_requires_recipient_signer_witness :
    withdraw_sol_entry activeChain activeChain.presale.owner 1 false true 3
      = .error .accountNotSigner :=
  withdraw_requires_recipient_signer activeChain activeChain.presale.owner 1 3 true rfl

end PresaleSolana
